import Mathlib

/-!
Verification of the localizer proxier core: the event classifier
(`serviceProcessor` in internal/proxier/handlers.go) and the orchestrator
query surface (`Proxier.Start` / `Proxier.List` in internal/proxier/proxy.go),
shallowly embedded in Lean.
-/

namespace Localizer

/-- Embeds k8s `ObjectReference` (the fields `serviceProcessor` reads from
`e.TargetRef`: `Kind`, `Name`, `Namespace`). -/
structure ObjectReference where
  kind : String
  name : String
  ns : String
deriving DecidableEq, Repr

/-- Embeds k8s `EndpointAddress` (only `TargetRef` is consulted by the code). -/
structure EndpointAddress where
  targetRef : Option ObjectReference
deriving DecidableEq, Repr

/-- Embeds k8s `EndpointSubset`. The code iterates only `Addresses`;
`NotReadyAddresses` and the subset's own `Ports` are carried here to record
that `serviceProcessor` never consults them. -/
structure EndpointSubset where
  addresses : List EndpointAddress
  notReadyAddresses : List EndpointAddress
  ports : List Int
deriving DecidableEq, Repr

/-- Embeds k8s `Endpoints` (`Subsets`). -/
structure Endpoints where
  subsets : List EndpointSubset
deriving DecidableEq, Repr

/-- Embeds k8s `ServicePort` (only the `Port` number is read, as `int(p.Port)`). -/
structure ServicePort where
  port : Int
deriving DecidableEq, Repr

/-- Embeds the part of k8s `ServiceSpec` the code reads: `ClusterIP`, `Ports`. -/
structure ServiceSpec where
  clusterIP : String
  ports : List ServicePort
deriving DecidableEq, Repr

/-- Embeds a k8s `Service`: metadata `Name`/`Namespace` plus its spec. -/
structure Service where
  name : String
  ns : String
  spec : ServiceSpec
deriving DecidableEq, Repr

/-- Embeds `EventType` from handlers.go (`EventAdded`, `EventDeleted`).
The Go type is a string with exactly these two published values; the switch
in `serviceProcessor` matches exactly these two. -/
inductive EventType where
  | added
  | deleted
deriving DecidableEq, Repr

/-- Embeds `ServiceEvent` from handlers.go. -/
structure ServiceEvent where
  eventType : EventType
  service : Service
deriving DecidableEq, Repr

/-- Modelled from the spec: the `ServiceType` constants referenced by
handlers.go (`ServiceTypeStandard`, `ServiceTypeStatefulset`) are declared in
a repository file not under src/. The spec says topology is a closed
two-value enumeration, `Decentralized` iff no virtual address, `Ordinary`
otherwise; `serviceProcessor` zero-initialises `info.Type` and only ever
overwrites it with `ServiceTypeStatefulset`, so `ServiceTypeStandard` is the
zero value (`standard` here) and `ServiceTypeStatefulset` is the other. -/
inductive ServiceType where
  | standard
  | statefulset
deriving DecidableEq, Repr

/-- Embeds `ServiceInfo` as used by handlers.go and proxy.go. -/
structure ServiceInfo where
  name : String
  ns : String
  type : ServiceType
deriving DecidableEq, Repr

/-- Embeds `PodInfo` (pod name and namespace, from `e.TargetRef`). -/
structure PodInfo where
  name : String
  ns : String
deriving DecidableEq, Repr

/-- Embeds `CreatePortForwardRequest` as populated by handlers.go. -/
structure CreatePortForwardRequest where
  service : ServiceInfo
  ports : List Int
  endpoint : Option PodInfo
  hostnames : List String
deriving DecidableEq, Repr

/-- Embeds `DeletePortForwardRequest` as populated by handlers.go. -/
structure DeletePortForwardRequest where
  service : ServiceInfo
deriving DecidableEq, Repr

/-- Embeds `PortForwardRequest`: in Go a struct of two optional pointers of
which `serviceProcessor` always sets exactly one, so a tagged union. -/
inductive PortForwardRequest where
  | create (req : CreatePortForwardRequest)
  | delete (req : DeletePortForwardRequest)
deriving DecidableEq, Repr

/-- The cluster endpoint-resolution call
`k.CoreV1().Endpoints(namespace).Get(ctx, name, ...)`, abstracted as an
oracle from (namespace, name) to either an error or an `Endpoints` object.
The error's contents are discarded by the code, so `Unit`. -/
def Resolver : Type := String → String → Except Unit Endpoints

/-- Embeds lines 58-71 of handlers.go: build `ServiceInfo` from the event's
service, with `Type` zero-initialised and set to statefulset when
`Spec.ClusterIP == "None"`. -/
def serviceInfoOf (s : Service) : ServiceInfo :=
  let info : ServiceInfo := { name := s.name, ns := s.ns, type := ServiceType.standard }
  if s.spec.clusterIP = "None" then { info with type := ServiceType.statefulset } else info

/-- Embeds the per-notification body of `serviceProcessor`
(handlers.go lines 57-136): the requests sent on `requester` for one
received `ServiceEvent`, in emission order. Channel sends become list
elements; `continue` becomes skipping; the endpoint `Get` is the
`Resolver` oracle and its error branch emits nothing. -/
def processEvent (k : Resolver) (s : ServiceEvent) : List PortForwardRequest :=
  let info := serviceInfoOf s.service
  if info.name = "kubernetes" then []
  else
    match s.eventType with
    | EventType.added =>
        let ports := s.service.spec.ports.map (fun p => p.port)
        match info.type with
        | ServiceType.standard =>
            [PortForwardRequest.create {
              service := info
              ports := ports
              endpoint := none
              hostnames := [info.name,
                info.name ++ "." ++ info.ns,
                info.name ++ "." ++ info.ns ++ ".svc",
                info.name ++ "." ++ info.ns ++ ".svc.cluster",
                info.name ++ "." ++ info.ns ++ ".svc.cluster.local"] }]
        | ServiceType.statefulset =>
            match k info.ns info.name with
            | Except.error _ => []
            | Except.ok endpoints =>
                endpoints.subsets.flatMap (fun subset =>
                  subset.addresses.filterMap (fun e =>
                    match e.targetRef with
                    | none => none
                    | some ref =>
                        if ref.kind ≠ "Pod" then none
                        else
                          let name := ref.name ++ "." ++ info.name
                          some (PortForwardRequest.create {
                            service := info
                            ports := ports
                            endpoint := some { name := ref.name, ns := ref.ns }
                            hostnames := [info.name,
                              name ++ "." ++ info.ns,
                              name ++ "." ++ info.ns ++ ".svc",
                              name ++ "." ++ info.ns ++ ".svc.cluster",
                              name ++ "." ++ info.ns ++ ".svc.cluster.local"] })))
    | EventType.deleted =>
        [PortForwardRequest.delete { service := info }]

/-- The `serviceProcessor` loop over a finite notification sequence: each
event is handled in arrival order by the single consumer, and the emitted
requests are concatenated in order. -/
def runProcessor (k : Resolver) (events : List ServiceEvent) : List PortForwardRequest :=
  events.flatMap (processEvent k)

/-- The spec's hostname-alias scheme, stated from the spec's words: the
progressive qualification rooted at `root`, namely
`{root, root.ns, root.ns.svc, root.ns.svc.cluster, root.ns.svc.cluster.local}`.
Used to compare the code's emitted aliases against the spec's description. -/
def progressiveAliases (root ns : String) : List String :=
  [root,
   root ++ "." ++ ns,
   root ++ "." ++ ns ++ ".svc",
   root ++ "." ++ ns ++ ".svc.cluster",
   root ++ "." ++ ns ++ ".svc.cluster.local"]

/-- The pod back-references that drive the Decentralized fan-out: one per
endpoint address across all subsets whose `TargetRef` is present and has
`Kind == "Pod"`, in the code's iteration order (subsets outer, addresses
inner). -/
def podRefs (eps : Endpoints) : List ObjectReference :=
  eps.subsets.flatMap (fun subset =>
    subset.addresses.filterMap (fun e =>
      match e.targetRef with
      | none => none
      | some ref => if ref.kind = "Pod" then some ref else none))

/-- The create request emitted for one pod back-reference in the
Decentralized fan-out, as handlers.go builds it (first hostname is the bare
service name; the remaining four are qualified forms of
`<podName>.<serviceName>`). -/
def podCreateRequest (info : ServiceInfo) (ports : List Int) (ref : ObjectReference) :
    PortForwardRequest :=
  let name := ref.name ++ "." ++ info.name
  PortForwardRequest.create {
    service := info
    ports := ports
    endpoint := some { name := ref.name, ns := ref.ns }
    hostnames := [info.name,
      name ++ "." ++ info.ns,
      name ++ "." ++ info.ns ++ ".svc",
      name ++ "." ++ info.ns ++ ".svc.cluster",
      name ++ "." ++ info.ns ++ ".svc.cluster.local"] }

/-- The hostname aliases carried by a request (`Hostnames` of a create
request; a delete request carries none). -/
def requestHostnames : PortForwardRequest → List String
  | PortForwardRequest.create c => c.hostnames
  | PortForwardRequest.delete _ => []

/-- Modelled from the spec: the tunnel status record attached to each
port-forward by the transport. The spec calls it an opaque record the core
stores without interpreting, and its defining file is not under src/, so it
is a single uninterpreted field here. -/
structure PortForwardStatus where
  raw : String
deriving DecidableEq, Repr

/-- Modelled from the spec: one tunnel entry held by the worker; proxy.go
reads its `Status` field. -/
structure PortForwardConnection where
  status : PortForwardStatus
deriving DecidableEq, Repr

/-- Modelled from the spec: the worker (Tunnel State Table). Its defining
file is not under src/; proxy.go accesses `worker.portForwards`, a map from
`ServiceInfo` to the list of entries, modelled as an association list. -/
structure Worker where
  portForwards : List (ServiceInfo × List PortForwardConnection)
deriving DecidableEq, Repr

/-- Embeds `ServiceStatus` from proxy.go. -/
structure ServiceStatus where
  serviceInfo : ServiceInfo
  statuses : List PortForwardStatus
deriving DecidableEq, Repr

/-- Embeds the `Proxier` struct: only the `worker` field matters to
`List`'s readiness check (`nil` before `Start` assigns it). -/
structure Proxier where
  worker : Option Worker
deriving DecidableEq, Repr

/-- Embeds `NewProxier` (proxy.go lines 49-55): `worker` is left at its
zero value `nil`. -/
def NewProxier : Proxier := { worker := none }

/-- Embeds the setup phase of `Proxier.Start` (proxy.go lines 58-63): if
`NewPortForwarder` fails, `Start` returns the error without assigning
`p.worker`; otherwise `p.worker` is set to the constructed worker. The
outcome of the construction call is passed in as `newPortForwarder`. -/
def Proxier.startSetup (p : Proxier) (newPortForwarder : Except String Worker) :
    Except String Proxier :=
  match newPortForwarder with
  | Except.error e => Except.error e
  | Except.ok w => Except.ok { p with worker := some w }

/-- Embeds `Proxier.List` (proxy.go lines 97-116): a "proxier not running"
error while `worker` is nil, otherwise one `ServiceStatus` per table key
with the statuses of that key's entries. -/
def Proxier.list (p : Proxier) : Except String (List ServiceStatus) :=
  match p.worker with
  | none => Except.error "proxier not running"
  | some w =>
      Except.ok (w.portForwards.map (fun pf =>
        { serviceInfo := pf.1, statuses := pf.2.map (fun conn => conn.status) }))

/-- The raw fan-out loop over endpoint subsets rewritten as a map over the
pod back-references; a list identity used by the Decentralized claims. -/
theorem fanout_eq (svcName svcNs : String) (ports : List Int) (subs : List EndpointSubset) :
    (subs.flatMap fun subset =>
       subset.addresses.filterMap fun e =>
         match e.targetRef with
         | none => none
         | some ref =>
           if ref.kind ≠ "Pod" then none
           else some (PortForwardRequest.create {
             service := { name := svcName, ns := svcNs, type := ServiceType.statefulset }
             ports := ports
             endpoint := some { name := ref.name, ns := ref.ns }
             hostnames := [svcName,
               ref.name ++ "." ++ svcName ++ "." ++ svcNs,
               ref.name ++ "." ++ svcName ++ "." ++ svcNs ++ ".svc",
               ref.name ++ "." ++ svcName ++ "." ++ svcNs ++ ".svc.cluster",
               ref.name ++ "." ++ svcName ++ "." ++ svcNs ++ ".svc.cluster.local"] }))
    = (podRefs { subsets := subs }).map
        (podCreateRequest { name := svcName, ns := svcNs, type := ServiceType.statefulset }
          ports) := by
  simp only [podRefs, List.map_flatMap, List.map_filterMap]
  induction subs with
  | nil => rfl
  | cons sub t ih =>
      simp only [List.flatMap_cons, ih]
      congr 1
      obtain ⟨addrs, nra, ps⟩ := sub
      induction addrs with
      | nil => rfl
      | cons e ta iha =>
          obtain ⟨tr⟩ := e
          cases tr with
          | none => simpa [List.filterMap_cons] using iha
          | some ref =>
              by_cases hk : ref.kind = "Pod"
              · simpa [List.filterMap_cons, hk, podCreateRequest] using iha
              · simpa [List.filterMap_cons, hk] using iha

/-- The Decentralized fan-out characterised: on a successful resolution the
emitted requests are exactly one `podCreateRequest` per pod back-reference,
in iteration order. Shared by several claim proofs. -/
theorem processEvent_decentralized_eq (k : Resolver) (s : ServiceEvent) (eps : Endpoints)
    (h1 : s.eventType = EventType.added)
    (h2 : s.service.spec.clusterIP = "None")
    (h3 : s.service.name ≠ "kubernetes")
    (h4 : k s.service.ns s.service.name = Except.ok eps) :
    processEvent k s =
      (podRefs eps).map
        (podCreateRequest { name := s.service.name, ns := s.service.ns,
                            type := ServiceType.statefulset }
          (s.service.spec.ports.map (fun p => p.port))) := by
  have hinfo : serviceInfoOf s.service =
      { name := s.service.name, ns := s.service.ns, type := ServiceType.statefulset } := by
    simp [serviceInfoOf, h2]
  simp only [processEvent, hinfo, h1, h4, h3, ite_false, if_false, ne_eq,
    not_false_eq_true, if_neg]
  exact fanout_eq s.service.name s.service.ns
    (s.service.spec.ports.map (fun p => p.port)) eps.subsets

/-- The derived `ServiceInfo` always carries the service's name, whatever
the topology branch did. -/
theorem serviceInfoOf_name (s : Service) : (serviceInfoOf s).name = s.name := by
  by_cases h : s.spec.clusterIP = "None" <;> simp [serviceInfoOf, h]

/-- A `podCreateRequest` is a create request and its ports are exactly the
ports it was built from. -/
theorem podCreateRequest_create_ports (info : ServiceInfo) (ports : List Int)
    (ref : ObjectReference) (c : CreatePortForwardRequest)
    (h : podCreateRequest info ports ref = PortForwardRequest.create c) :
    c.ports = ports := by
  simp only [podCreateRequest, PortForwardRequest.create.injEq] at h
  rw [← h]

/-- Claim C1: an Added notification of an Ordinary service (assigned virtual
address, i.e. ClusterIP not "None") whose name is not "kubernetes" yields
exactly one create request with no endpoint target, the declared port
numbers in declaration order, and the 5 progressively-qualified hostname
aliases rooted at the service name. -/
theorem ordinary_add_single_create (k : Resolver) (s : ServiceEvent)
    (h1 : s.eventType = EventType.added)
    (h2 : s.service.spec.clusterIP ≠ "None")
    (h3 : s.service.name ≠ "kubernetes") :
    processEvent k s =
      [PortForwardRequest.create {
        service := { name := s.service.name, ns := s.service.ns, type := ServiceType.standard }
        ports := s.service.spec.ports.map (fun p => p.port)
        endpoint := none
        hostnames := progressiveAliases s.service.name s.service.ns }] := by
  have hinfo : serviceInfoOf s.service =
      { name := s.service.name, ns := s.service.ns, type := ServiceType.standard } := by
    simp [serviceInfoOf, h2]
  simp [processEvent, hinfo, h1, h3, progressiveAliases]

/-- Witness for C1 at the spec's own scenario: service `web` in `default`
with virtual address `10.0.0.1` and port 80. -/
theorem ordinary_add_single_create_witness :
    processEvent (fun _ _ => Except.error ())
      { eventType := EventType.added,
        service := { name := "web", ns := "default",
                     spec := { clusterIP := "10.0.0.1", ports := [{ port := 80 }] } } } =
      [PortForwardRequest.create {
        service := { name := "web", ns := "default", type := ServiceType.standard }
        ports := [80]
        endpoint := none
        hostnames := ["web", "web.default", "web.default.svc",
          "web.default.svc.cluster", "web.default.svc.cluster.local"] }] := by
  have h := ordinary_add_single_create (fun _ _ => Except.error ())
    { eventType := EventType.added,
      service := { name := "web", ns := "default",
                   spec := { clusterIP := "10.0.0.1", ports := [{ port := 80 }] } } }
    rfl (by decide) (by decide)
  simpa [progressiveAliases] using h

/-- Claim C2 counterexample: at the spec's own headless scenario (service
`db` in namespace `ns`, one ready pod endpoint `pod-0`), the emitted
hostname aliases start with the bare service name `db`, not with the
progressive qualification rooted at `pod-0.db` that the claim describes. -/
theorem decentralized_aliases_counterexample :
    (processEvent
        (fun _ _ => Except.ok { subsets := [{
            addresses := [{ targetRef := some { kind := "Pod", name := "pod-0", ns := "ns" } }],
            notReadyAddresses := [], ports := [] }] })
        { eventType := EventType.added,
          service := { name := "db", ns := "ns",
                       spec := { clusterIP := "None", ports := [{ port := 5432 }] } } }).map
        requestHostnames
      = [["db", "pod-0.db.ns", "pod-0.db.ns.svc", "pod-0.db.ns.svc.cluster",
          "pod-0.db.ns.svc.cluster.local"]]
    ∧ ["db", "pod-0.db.ns", "pod-0.db.ns.svc", "pod-0.db.ns.svc.cluster",
        "pod-0.db.ns.svc.cluster.local"]
      ≠ progressiveAliases ("pod-0" ++ "." ++ "db") "ns" :=
  ⟨by decide, by decide⟩

/-- Claim C2 (amended): an Added notification of a Decentralized service
whose name is not "kubernetes", with successful endpoint resolution, yields
exactly one create request per pod-backed endpoint address (others yield no
intent), each carrying that endpoint target and 5 hostname aliases of which
the first is the bare service name and the remaining four are the
progressive qualification rooted at `<podName>.<serviceName>`. -/
theorem decentralized_add_fanout (k : Resolver) (s : ServiceEvent) (eps : Endpoints)
    (h1 : s.eventType = EventType.added)
    (h2 : s.service.spec.clusterIP = "None")
    (h3 : s.service.name ≠ "kubernetes")
    (h4 : k s.service.ns s.service.name = Except.ok eps) :
    processEvent k s =
      (podRefs eps).map
        (podCreateRequest { name := s.service.name, ns := s.service.ns,
                            type := ServiceType.statefulset }
          (s.service.spec.ports.map (fun p => p.port)))
    ∧ ∀ ref : ObjectReference,
        requestHostnames
          (podCreateRequest { name := s.service.name, ns := s.service.ns,
                              type := ServiceType.statefulset }
            (s.service.spec.ports.map (fun p => p.port)) ref)
        = s.service.name ::
            (progressiveAliases (ref.name ++ "." ++ s.service.name) s.service.ns).tail := by
  refine ⟨processEvent_decentralized_eq k s eps h1 h2 h3 h4, ?_⟩
  intro ref
  simp [podCreateRequest, requestHostnames, progressiveAliases]

/-- Witness for C2 at the spec's headless scenario. -/
theorem decentralized_add_fanout_witness :
    processEvent
        (fun _ _ => Except.ok { subsets := [{
            addresses := [{ targetRef := some { kind := "Pod", name := "pod-0", ns := "ns" } }],
            notReadyAddresses := [], ports := [] }] })
        { eventType := EventType.added,
          service := { name := "db", ns := "ns",
                       spec := { clusterIP := "None", ports := [{ port := 5432 }] } } }
      = [PortForwardRequest.create {
          service := { name := "db", ns := "ns", type := ServiceType.statefulset }
          ports := [5432]
          endpoint := some { name := "pod-0", ns := "ns" }
          hostnames := ["db", "pod-0.db.ns", "pod-0.db.ns.svc", "pod-0.db.ns.svc.cluster",
            "pod-0.db.ns.svc.cluster.local"] }] := by
  have h := decentralized_add_fanout
    (fun _ _ => Except.ok { subsets := [{
        addresses := [{ targetRef := some { kind := "Pod", name := "pod-0", ns := "ns" } }],
        notReadyAddresses := [], ports := [] }] })
    { eventType := EventType.added,
      service := { name := "db", ns := "ns",
                   spec := { clusterIP := "None", ports := [{ port := 5432 }] } } }
    { subsets := [{
        addresses := [{ targetRef := some { kind := "Pod", name := "pod-0", ns := "ns" } }],
        notReadyAddresses := [], ports := [] }] }
    rfl rfl (by decide) rfl
  simpa [podRefs, podCreateRequest] using h.1

/-- Claim C3: a Deleted notification whose service name is not "kubernetes"
yields exactly one delete request carrying the service's identity, whatever
the service's topology (the statement holds for every `clusterIP`) and with
no dependence on any tunnel-entry state. -/
theorem deleted_single_delete (k : Resolver) (s : ServiceEvent)
    (h1 : s.eventType = EventType.deleted)
    (h3 : s.service.name ≠ "kubernetes") :
    processEvent k s = [PortForwardRequest.delete { service := serviceInfoOf s.service }] := by
  simp [processEvent, serviceInfoOf_name, h1, h3]

/-- Witness for C3 at a concrete delete notification. -/
theorem deleted_single_delete_witness :
    processEvent (fun _ _ => Except.error ())
      { eventType := EventType.deleted,
        service := { name := "web", ns := "default",
                     spec := { clusterIP := "10.0.0.1", ports := [{ port := 80 }] } } }
      = [PortForwardRequest.delete {
          service := { name := "web", ns := "default", type := ServiceType.standard } }] := by
  have h := deleted_single_delete (fun _ _ => Except.error ())
    { eventType := EventType.deleted,
      service := { name := "web", ns := "default",
                   spec := { clusterIP := "10.0.0.1", ports := [{ port := 80 }] } } }
    rfl (by decide)
  simpa [serviceInfoOf] using h

/-- Claim C5: a notification (of either kind) for the reserved name
"kubernetes" yields no request at all, and on any step of the processing
loop it contributes nothing to the emitted stream. -/
theorem kubernetes_excluded (k : Resolver) (s : ServiceEvent) (rest : List ServiceEvent)
    (h : s.service.name = "kubernetes") :
    processEvent k s = [] ∧ runProcessor k (s :: rest) = runProcessor k rest := by
  have h0 : processEvent k s = [] := by
    simp [processEvent, serviceInfoOf_name, h]
  exact ⟨h0, by simp [runProcessor, h0]⟩

/-- Witness for C5: a "kubernetes" add notification followed by an ordinary
one emits nothing for the former. -/
theorem kubernetes_excluded_witness :
    processEvent (fun _ _ => Except.error ())
      { eventType := EventType.added,
        service := { name := "kubernetes", ns := "default",
                     spec := { clusterIP := "10.96.0.1", ports := [{ port := 443 }] } } } = []
    ∧ runProcessor (fun _ _ => Except.error ())
        ({ eventType := EventType.added,
           service := { name := "kubernetes", ns := "default",
                        spec := { clusterIP := "10.96.0.1", ports := [{ port := 443 }] } } } ::
         [{ eventType := EventType.deleted,
            service := { name := "web", ns := "default",
                         spec := { clusterIP := "10.0.0.1", ports := [{ port := 80 }] } } }])
      = runProcessor (fun _ _ => Except.error ())
          [{ eventType := EventType.deleted,
             service := { name := "web", ns := "default",
                          spec := { clusterIP := "10.0.0.1", ports := [{ port := 80 }] } } }] :=
  kubernetes_excluded (fun _ _ => Except.error ())
    { eventType := EventType.added,
      service := { name := "kubernetes", ns := "default",
                   spec := { clusterIP := "10.96.0.1", ports := [{ port := 443 }] } } }
    [{ eventType := EventType.deleted,
       service := { name := "web", ns := "default",
                    spec := { clusterIP := "10.0.0.1", ports := [{ port := 80 }] } } }]
    rfl

/-- Claim C6: when endpoint resolution fails for a Decentralized Added
notification, no request is emitted for it, the step function returns an
ordinary (error-free) empty result, and the loop over the remaining
notifications is unaffected. -/
theorem resolution_failure_silent (k : Resolver) (s : ServiceEvent) (rest : List ServiceEvent)
    (h1 : s.eventType = EventType.added)
    (h2 : s.service.spec.clusterIP = "None")
    (h4 : k s.service.ns s.service.name = Except.error ()) :
    processEvent k s = [] ∧ runProcessor k (s :: rest) = runProcessor k rest := by
  have h0 : processEvent k s = [] := by
    by_cases h3 : s.service.name = "kubernetes"
    · simp [processEvent, serviceInfoOf_name, h3]
    · have hinfo : serviceInfoOf s.service =
          { name := s.service.name, ns := s.service.ns, type := ServiceType.statefulset } := by
        simp [serviceInfoOf, h2]
      simp [processEvent, hinfo, h1, h3, h4]
  exact ⟨h0, by simp [runProcessor, h0]⟩

/-- Witness for C6: a failing resolver suppresses the headless create while
the following notification is still processed. -/
theorem resolution_failure_silent_witness :
    processEvent (fun _ _ => Except.error ())
      { eventType := EventType.added,
        service := { name := "db", ns := "ns",
                     spec := { clusterIP := "None", ports := [{ port := 5432 }] } } } = []
    ∧ runProcessor (fun _ _ => Except.error ())
        ({ eventType := EventType.added,
           service := { name := "db", ns := "ns",
                        spec := { clusterIP := "None", ports := [{ port := 5432 }] } } } ::
         [{ eventType := EventType.deleted,
            service := { name := "web", ns := "default",
                         spec := { clusterIP := "10.0.0.1", ports := [{ port := 80 }] } } }])
      = runProcessor (fun _ _ => Except.error ())
          [{ eventType := EventType.deleted,
             service := { name := "web", ns := "default",
                          spec := { clusterIP := "10.0.0.1", ports := [{ port := 80 }] } } }] :=
  resolution_failure_silent (fun _ _ => Except.error ())
    { eventType := EventType.added,
      service := { name := "db", ns := "ns",
                   spec := { clusterIP := "None", ports := [{ port := 5432 }] } } }
    [{ eventType := EventType.deleted,
       service := { name := "web", ns := "default",
                    spec := { clusterIP := "10.0.0.1", ports := [{ port := 80 }] } } }]
    rfl rfl rfl

/-- Claim C8: the classifier marks a service Decentralized (statefulset)
precisely when its cluster address is the sentinel "None", and Ordinary
(standard) precisely otherwise. -/
theorem topology_classification (s : Service) :
    ((serviceInfoOf s).type = ServiceType.statefulset ↔ s.spec.clusterIP = "None")
    ∧ ((serviceInfoOf s).type = ServiceType.standard ↔ s.spec.clusterIP ≠ "None") := by
  by_cases h : s.spec.clusterIP = "None" <;> simp [serviceInfoOf, h]

/-- Claim C10: every create request emitted for a Decentralized Added
notification carries exactly the service's declared port numbers in
declaration order, independent of the endpoint (the subsets' own port lists
are never consulted). -/
theorem decentralized_ports_uniform (k : Resolver) (s : ServiceEvent)
    (c : CreatePortForwardRequest)
    (h1 : s.eventType = EventType.added)
    (h2 : s.service.spec.clusterIP = "None")
    (hm : PortForwardRequest.create c ∈ processEvent k s) :
    c.ports = s.service.spec.ports.map (fun p => p.port) := by
  by_cases h3 : s.service.name = "kubernetes"
  · simp [processEvent, serviceInfoOf_name, h3] at hm
  · cases h4 : k s.service.ns s.service.name with
    | error e =>
        cases e
        have hinfo : serviceInfoOf s.service =
            { name := s.service.name, ns := s.service.ns, type := ServiceType.statefulset } := by
          simp [serviceInfoOf, h2]
        rw [show processEvent k s = [] by simp [processEvent, hinfo, h1, h3, h4]] at hm
        simp at hm
    | ok eps =>
        rw [processEvent_decentralized_eq k s eps h1 h2 h3 h4] at hm
        simp only [List.mem_map] at hm
        obtain ⟨ref, hmem, heq⟩ := hm
        exact podCreateRequest_create_ports _ _ ref c heq

/-- Witness for C10 at the headless scenario: the emitted create's ports are
the service's declared ports. -/
theorem decentralized_ports_uniform_witness :
    ({ service := { name := "db", ns := "ns", type := ServiceType.statefulset }
       ports := [5432]
       endpoint := some { name := "pod-0", ns := "ns" }
       hostnames := ["db", "pod-0.db.ns", "pod-0.db.ns.svc", "pod-0.db.ns.svc.cluster",
         "pod-0.db.ns.svc.cluster.local"] } : CreatePortForwardRequest).ports
      = [(5432 : Int)] :=
  decentralized_ports_uniform
    (fun _ _ => Except.ok { subsets := [{
        addresses := [{ targetRef := some { kind := "Pod", name := "pod-0", ns := "ns" } }],
        notReadyAddresses := [], ports := [] }] })
    { eventType := EventType.added,
      service := { name := "db", ns := "ns",
                   spec := { clusterIP := "None", ports := [{ port := 5432 }] } } }
    { service := { name := "db", ns := "ns", type := ServiceType.statefulset }
      ports := [5432]
      endpoint := some { name := "pod-0", ns := "ns" }
      hostnames := ["db", "pod-0.db.ns", "pod-0.db.ns.svc", "pod-0.db.ns.svc.cluster",
        "pod-0.db.ns.svc.cluster.local"] }
    rfl rfl (by decide)

/-- Claim C7: before the setup phase of `Start` has assigned the worker,
`List` returns the typed "proxier not running" error (and no result), and a
construction failure makes `Start` return that error without assigning the
worker, so `List` keeps failing the same way afterwards. -/
theorem list_before_start (p : Proxier) (err : String) (h : p.worker = none) :
    p.list = Except.error "proxier not running"
    ∧ p.startSetup (Except.error err) = Except.error err := by
  exact ⟨by simp [Proxier.list, h], rfl⟩

/-- Witness for C7: a freshly constructed proxier. -/
theorem list_before_start_witness :
    NewProxier.list = Except.error "proxier not running"
    ∧ NewProxier.startSetup (Except.error "pf construction failed")
      = Except.error "pf construction failed" :=
  list_before_start NewProxier "pf construction failed" rfl

/-- Claim C9: once the setup phase has succeeded, the worker is assigned
and every `List` call returns a successful snapshot, never the "not
running" error; nothing in the embedded lifecycle ever clears the worker
again. -/
theorem list_after_setup (p q : Proxier) (w : Worker)
    (h : p.startSetup (Except.ok w) = Except.ok q) :
    q.worker = some w
    ∧ q.list = Except.ok (w.portForwards.map (fun pf =>
        { serviceInfo := pf.1, statuses := pf.2.map (fun conn => conn.status) })) := by
  simp only [Proxier.startSetup, Except.ok.injEq] at h
  subst h
  exact ⟨rfl, rfl⟩

/-- Witness for C9: after a successful setup with a one-entry table, `List`
returns that entry's statuses. -/
theorem list_after_setup_witness :
    Proxier.list { worker := some { portForwards :=
        [({ name := "web", ns := "default", type := ServiceType.standard },
          [{ status := { raw := "active" } }])] } }
      = Except.ok [{ serviceInfo := { name := "web", ns := "default",
                                      type := ServiceType.standard },
                     statuses := [{ raw := "active" }] }] :=
  (list_after_setup NewProxier
    { worker := some { portForwards :=
        [({ name := "web", ns := "default", type := ServiceType.standard },
          [{ status := { raw := "active" } }])] } }
    { portForwards :=
        [({ name := "web", ns := "default", type := ServiceType.standard },
          [{ status := { raw := "active" } }])] }
    rfl).2

end Localizer
